import Mathlib

/-!
Verification of the concurrent acquisition core in `camera_web/app.py`.

The embedding translates, from the source:
  * the motor data model (six named motors, five register kinds),
  * `read_robot_data` (the telemetry poller tick, lines 91-122),
  * `connect_robots` (lines 75-88), the `/reconnect` handler (lines 464-479),
  * the `/robot_data` handler (lines 449-461) and the `/video_feed` frame
    generator `generate_frames` (lines 402-426),
  * `find_available_port` (lines 482-491).

Hardware I/O (the lerobot `FeetechMotorsBus.sync_read`, `bus.connect`,
`camera.async_read`) is external to the repository and is modelled by
oracles: a register read either yields a value per motor or fails
(exception), exactly the success/failure contract the code relies on.
Python's exception control flow becomes `Option`-valued results.

Mutex-guarded critical sections (`robot_lock`) are modelled as atomic steps
of a transition system: every `with robot_lock:` block in the source is one
`step`, which is precisely the atomicity granted by the lock.
-/

namespace CameraWeb

/-- The six motor names, in the order of `MOTOR_NAMES` in the source. -/
inductive MotorName
  | shoulder_pan
  | shoulder_lift
  | elbow_flex
  | wrist_flex
  | wrist_roll
  | gripper
deriving DecidableEq

/-- `MOTOR_NAMES` (app.py line 33): the ordered list of the six motors. -/
def MOTOR_NAMES : List MotorName :=
  [MotorName.shoulder_pan, MotorName.shoulder_lift, MotorName.elbow_flex,
   MotorName.wrist_flex, MotorName.wrist_roll, MotorName.gripper]

/-- One motor's entry in a published snapshot (app.py lines 106-112).
`voltage` is `raw / 10` under Python true division, hence a rational. -/
structure MotorData where
  voltage : Rat
  temp : Int
  load : Int
  current : Int
  position : Int

/-- The raw register values obtained by the five `sync_read` calls of one
successful tick (app.py lines 98-102): one integer per motor per register. -/
structure Readings where
  voltage : MotorName → Int
  temp : MotorName → Int
  load : MotorName → Int
  current : MotorName → Int
  position : MotorName → Int

/-- One motor's dict (app.py lines 106-112): voltage divided by 10,
the remaining registers raw. -/
def mkMotorData (r : Readings) (name : MotorName) : MotorData :=
  { voltage := (r.voltage name : Rat) / 10
  , temp := r.temp name
  , load := r.load name
  , current := r.current name
  , position := r.position name }

/-- Python `min` over a list of rationals: first element, folded with `min`.
The empty case never arises in the source (`min` over the six motor values);
Python would raise there. -/
def pyMin : List Rat → Rat
  | [] => 0
  | a :: rest => rest.foldl min a

/-- Python `max` over a list of integers, same shape as `pyMin`. -/
def pyMax : List Int → Int
  | [] => 0
  | a :: rest => rest.foldl max a

/-- The arm snapshot published by a successful tick
(`robot_state[arm]["data"]`, app.py lines 114-119). -/
structure ArmData where
  motors : MotorName → MotorData
  min_voltage : Rat
  max_temp : Int
  timestamp : Rat

/-- Builds the snapshot dict of app.py lines 104-119: the per-motor data,
`min_voltage = min(m["voltage"] for m in motors.values())`,
`max_temp = max(m["temp"] for m in motors.values())`, and the tick's time. -/
def mkData (r : Readings) (t : Rat) : ArmData :=
  { motors := mkMotorData r
  , min_voltage := pyMin (MOTOR_NAMES.map fun n => (mkMotorData r n).voltage)
  , max_temp := pyMax (MOTOR_NAMES.map fun n => (mkMotorData r n).temp)
  , timestamp := t }

theorem foldl_min_le_init {α : Type} [LinearOrder α] :
    ∀ (l : List α) (a : α), l.foldl min a ≤ a := by
  intro l
  induction l with
  | nil => intro a; exact le_refl a
  | cons b tl ih =>
    intro a
    rw [List.foldl_cons]
    exact le_trans (ih (min a b)) (min_le_left a b)

theorem foldl_min_le_mem {α : Type} [LinearOrder α] :
    ∀ (l : List α) (a x : α), x ∈ l → l.foldl min a ≤ x := by
  intro l
  induction l with
  | nil => intro a x hx; exact absurd hx (List.not_mem_nil x)
  | cons b tl ih =>
    intro a x hx
    rw [List.foldl_cons]
    rcases List.mem_cons.mp hx with h | h
    · subst h
      exact le_trans (foldl_min_le_init tl (min a x)) (min_le_right a x)
    · exact ih (min a b) x h

theorem foldl_min_mem {α : Type} [LinearOrder α] :
    ∀ (l : List α) (a : α), l.foldl min a = a ∨ l.foldl min a ∈ l := by
  intro l
  induction l with
  | nil => intro a; exact Or.inl rfl
  | cons b tl ih =>
    intro a
    rw [List.foldl_cons]
    rcases ih (min a b) with h | h
    · rcases min_choice a b with hc | hc
      · exact Or.inl (h.trans hc)
      · exact Or.inr (List.mem_cons.mpr (Or.inl (h.trans hc)))
    · exact Or.inr (List.mem_cons.mpr (Or.inr h))

theorem foldl_max_init_le {α : Type} [LinearOrder α] :
    ∀ (l : List α) (a : α), a ≤ l.foldl max a := by
  intro l
  induction l with
  | nil => intro a; exact le_refl a
  | cons b tl ih =>
    intro a
    rw [List.foldl_cons]
    exact le_trans (le_max_left a b) (ih (max a b))

theorem foldl_max_mem_le {α : Type} [LinearOrder α] :
    ∀ (l : List α) (a x : α), x ∈ l → x ≤ l.foldl max a := by
  intro l
  induction l with
  | nil => intro a x hx; exact absurd hx (List.not_mem_nil x)
  | cons b tl ih =>
    intro a x hx
    rw [List.foldl_cons]
    rcases List.mem_cons.mp hx with h | h
    · subst h
      exact le_trans (le_max_right a x) (foldl_max_init_le tl (max a x))
    · exact ih (max a b) x h

theorem foldl_max_mem {α : Type} [LinearOrder α] :
    ∀ (l : List α) (a : α), l.foldl max a = a ∨ l.foldl max a ∈ l := by
  intro l
  induction l with
  | nil => intro a; exact Or.inl rfl
  | cons b tl ih =>
    intro a
    rw [List.foldl_cons]
    rcases ih (max a b) with h | h
    · rcases max_choice a b with hc | hc
      · exact Or.inl (h.trans hc)
      · exact Or.inr (List.mem_cons.mpr (Or.inl (h.trans hc)))
    · exact Or.inr (List.mem_cons.mpr (Or.inr h))

theorem pyMin_le (l : List Rat) (x : Rat) (hx : x ∈ l) : pyMin l ≤ x := by
  cases l with
  | nil => exact absurd hx (List.not_mem_nil x)
  | cons a tl =>
    rcases List.mem_cons.mp hx with h | h
    · subst h
      exact foldl_min_le_init tl x
    · exact foldl_min_le_mem tl a x h

theorem pyMin_mem (l : List Rat) (h : l ≠ []) : pyMin l ∈ l := by
  cases l with
  | nil => exact absurd rfl h
  | cons a tl =>
    show tl.foldl min a ∈ a :: tl
    rcases foldl_min_mem tl a with hm | hm
    · rw [hm]; exact List.mem_cons_self a tl
    · exact List.mem_cons_of_mem a hm

theorem pyMax_le (l : List Int) (x : Int) (hx : x ∈ l) : x ≤ pyMax l := by
  cases l with
  | nil => exact absurd hx (List.not_mem_nil x)
  | cons a tl =>
    rcases List.mem_cons.mp hx with h | h
    · subst h
      exact foldl_max_init_le tl x
    · exact foldl_max_mem_le tl a x h

theorem pyMax_mem (l : List Int) (h : l ≠ []) : pyMax l ∈ l := by
  cases l with
  | nil => exact absurd rfl h
  | cons a tl =>
    show tl.foldl max a ∈ a :: tl
    rcases foldl_max_mem tl a with hm | hm
    · rw [hm]; exact List.mem_cons_self a tl
    · exact List.mem_cons_of_mem a hm

theorem motorName_mem_MOTOR_NAMES : ∀ n : MotorName, n ∈ MOTOR_NAMES := by
  intro n
  cases n <;> simp [MOTOR_NAMES]

/-- C1: every snapshot published by the telemetry poller (built by
`mkData`, app.py lines 104-119, and installed only while `connected` stays
true) has `min_voltage` equal to the minimum of the six motors' stored
voltage values and `max_temp` equal to the maximum of the six motors'
stored temperature values: `min_voltage` is a lower bound attained at some
motor, and `max_temp` an upper bound attained at some motor. -/
theorem C1_snapshot_minmax (r : Readings) (t : Rat) :
    (∀ n : MotorName, (mkData r t).min_voltage ≤ ((mkData r t).motors n).voltage)
    ∧ (∃ n : MotorName, (mkData r t).min_voltage = ((mkData r t).motors n).voltage)
    ∧ (∀ n : MotorName, ((mkData r t).motors n).temp ≤ (mkData r t).max_temp)
    ∧ (∃ n : MotorName, (mkData r t).max_temp = ((mkData r t).motors n).temp) := by
  refine ⟨?_, ?_, ?_, ?_⟩
  · intro n
    exact pyMin_le _ _ (List.mem_map_of_mem _ (motorName_mem_MOTOR_NAMES n))
  · have hne : (MOTOR_NAMES.map fun n => (mkMotorData r n).voltage) ≠ [] := by
      simp [MOTOR_NAMES]
    rcases List.mem_map.mp (pyMin_mem _ hne) with ⟨n, _, hn⟩
    exact ⟨n, hn.symm⟩
  · intro n
    exact pyMax_le _ _ (List.mem_map_of_mem _ (motorName_mem_MOTOR_NAMES n))
  · have hne : (MOTOR_NAMES.map fun n => (mkMotorData r n).temp) ≠ [] := by
      simp [MOTOR_NAMES]
    rcases List.mem_map.mp (pyMax_mem _ hne) with ⟨n, _, hn⟩
    exact ⟨n, hn.symm⟩

/-- The five register kinds read on a tick, one `sync_read` each
(app.py lines 98-102). -/
inductive RegName
  | voltage
  | temp
  | load
  | current
  | position
deriving DecidableEq

/-- The order in which the tick issues its five `sync_read` calls. -/
def REG_ORDER : List RegName :=
  [RegName.voltage, RegName.temp, RegName.load, RegName.current, RegName.position]

/-- A read oracle: the result of one `bus.sync_read(reg, normalize=False)`,
either a value per motor or a raised exception (`none`). -/
def ReadOracle : Type := RegName → Option (MotorName → Int)

/-- The five sequential `sync_read` calls of app.py lines 98-102, with the
Python exception semantics: the first failing call aborts the remaining
ones. Returns the readings (if all five succeeded) together with the list
of `sync_read` requests actually issued, in order. -/
def readAll (oracle : ReadOracle) : Option Readings × List RegName :=
  match oracle RegName.voltage with
  | none => (none, [RegName.voltage])
  | some v =>
    match oracle RegName.temp with
    | none => (none, [RegName.voltage, RegName.temp])
    | some t =>
      match oracle RegName.load with
      | none => (none, [RegName.voltage, RegName.temp, RegName.load])
      | some l =>
        match oracle RegName.current with
        | none => (none, [RegName.voltage, RegName.temp, RegName.load, RegName.current])
        | some c =>
          match oracle RegName.position with
          | none => (none, REG_ORDER)
          | some p =>
            (some { voltage := v, temp := t, load := l, current := c, position := p },
             REG_ORDER)

/-- One arm's entry in `robot_state` (app.py lines 40-43):
`{"connected": ..., "bus": ..., "data": ...}`. The bus handle carries no
observable state of its own here, so it is `Option Unit`; `data` starts as
the empty dict, modelled as `none`. -/
structure ArmState where
  connected : Bool
  bus : Option Unit
  data : Option ArmData

/-- Initial per-arm state (app.py lines 41-42). -/
def initArm : ArmState := { connected := false, bus := none, data := none }

/-- The body of `read_robot_data` for one arm (app.py lines 94-122): if
`connected` and a bus is present, perform the five reads; on success
replace `data` wholesale with the new snapshot; on an exception flip
`connected` to false and leave `data` untouched. Also returns the list of
`sync_read` requests issued on this tick. -/
def readArmTick (oracle : ReadOracle) (t : Rat) (s : ArmState) :
    ArmState × List RegName :=
  if s.connected && s.bus.isSome then
    match readAll oracle with
    | (some r, reqs) => ({ s with data := some (mkData r t) }, reqs)
    | (none, reqs) => ({ s with connected := false }, reqs)
  else (s, [])

/-- The body of `connect_robots` for one arm (app.py lines 78-88): skipped
when no port is configured; otherwise `create_bus` + `bus.connect()`
(success/failure given by the oracle). On success the bus is installed and
`connected` set true; on failure only `connected` is set false (the `bus`
assignment on line 83 is never reached). -/
def connectArm (port : Option Unit) (oracle : Option Unit) (s : ArmState) : ArmState :=
  match port with
  | none => s
  | some _ =>
    match oracle with
    | some b => { s with bus := some b, connected := true }
    | none => { s with connected := false }

/-- The teardown half of the `/reconnect` handler for one arm
(app.py lines 468-475): if a bus is present, disconnect it, clear it and
set `connected` false. -/
def teardownArm (s : ArmState) : ArmState :=
  if s.bus.isSome then { s with bus := none, connected := false } else s

/-- The `/reconnect` handler's effect on one arm: teardown followed by
`connect_robots` (app.py lines 466-478). -/
def reconnectArm (port : Option Unit) (oracle : Option Unit) (s : ArmState) : ArmState :=
  connectArm port oracle (teardownArm s)

/-- Oracle where every `sync_read` raises. -/
def failOracle : ReadOracle := fun _ => none

/-- All motors report 72 on every register. -/
def goodVal : MotorName → Int := fun _ => 72

/-- Oracle where every `sync_read` succeeds, each motor reporting 72. -/
def allGoodOracle : ReadOracle := fun _ => some goodVal

/-- The readings produced by `allGoodOracle`. -/
def rGood : Readings :=
  { voltage := goodVal, temp := goodVal, load := goodVal
  , current := goodVal, position := goodVal }

/-- A connected arm with an installed bus and no published data yet. -/
def conS : ArmState := { connected := true, bus := some (), data := none }

/-- A degraded arm: a read failed, so `connected` is false, but the bus
handle from the original connect is still installed. -/
def degS : ArmState := { connected := false, bus := some (), data := none }

/-- C2: on any poll tick whose register read fails (the guard of app.py
line 95 held, so a read was attempted, and the batch raised), the arm ends
the tick with `connected = false` and with `data` — the stored motor
values — identical to what it was before the tick: the snapshot dict is
assigned only after all five reads succeed (app.py line 114), so a failure
anywhere overwrites nothing. -/
theorem C2_read_failure_no_partial_overwrite (oracle : ReadOracle) (t : Rat)
    (s : ArmState) (hc : s.connected = true) (hb : s.bus.isSome = true)
    (hf : (readAll oracle).1 = none) :
    (readArmTick oracle t s).1.connected = false
    ∧ (readArmTick oracle t s).1.data = s.data := by
  have hg : (s.connected && s.bus.isSome) = true := by rw [hc, hb]; rfl
  unfold readArmTick
  rcases hr : readAll oracle with ⟨res, reqs⟩
  rw [hr] at hf
  simp only at hf
  subst hf
  simp [hg, hr]

/-- Witness for C2 at a concrete input: a connected arm whose third
`sync_read` (the load register) raises. -/
def loadFailOracle : ReadOracle :=
  fun r => if r = RegName.load then none else some goodVal

theorem C2_witness :
    (readArmTick loadFailOracle 0 conS).1.connected = false
    ∧ (readArmTick loadFailOracle 0 conS).1.data = conS.data :=
  C2_read_failure_no_partial_overwrite loadFailOracle 0 conS rfl rfl rfl

/-- Counterexample to C4 as stated: `degS` is an arm in the DEGRADED state
(`connected = false` after a read failure, bus still installed). Even with
an oracle under which every register read would succeed, the poller tick
leaves `connected = false` — indeed it issues no read at all (empty request
list), because the guard on app.py line 95 requires `connected` to already
be true. A later successful read never happens, so the arm does not return
to CONNECTED without an explicit reconnect. -/
theorem C4_counterexample :
    degS.connected = false ∧ degS.bus.isSome = true
    ∧ ((readAll allGoodOracle).1.isSome = true)
    ∧ ¬((readArmTick allGoodOracle 0 degS).1.connected = true)
    ∧ (readArmTick allGoodOracle 0 degS).2 = [] := by
  refine ⟨rfl, rfl, rfl, ?_, rfl⟩
  intro h
  exact Bool.false_ne_true h

/-- C4 amended: once an arm is degraded (`connected = false`), the poller
skips it entirely — the tick is a no-op issuing no reads — for every oracle
and every tick; the only way back to CONNECTED is the explicit reconnect
path (`teardown` + `connect_robots`), which on a successful connect
installs a fresh bus and sets `connected = true`. -/
theorem C4_no_recovery_without_reconnect :
    (∀ (oracle : ReadOracle) (t : Rat) (a : ArmState),
        a.connected = false → readArmTick oracle t a = (a, []))
    ∧ (∀ (b : Unit) (a : ArmState),
        (reconnectArm (some ()) (some b) a).connected = true
        ∧ (reconnectArm (some ()) (some b) a).bus = some b) := by
  constructor
  · intro oracle t a h
    unfold readArmTick
    rw [h]
    simp
  · intro b a
    exact ⟨rfl, rfl⟩

theorem C4_witness :
    readArmTick allGoodOracle 0 degS = (degS, [])
    ∧ (reconnectArm (some ()) (some ()) degS).connected = true :=
  ⟨C4_no_recovery_without_reconnect.1 allGoodOracle 0 degS rfl,
   (C4_no_recovery_without_reconnect.2 () degS).1⟩

theorem readAll_some_reqs (oracle : ReadOracle) (r : Readings) (tr : List RegName)
    (h : readAll oracle = (some r, tr)) : tr = REG_ORDER := by
  unfold readAll at h
  repeat' split at h
  all_goals first
    | (injection h with h1 h2; exact Option.noConfusion h1)
    | (injection h with h1 h2; exact h2.symm)

theorem readAll_none_reqs (oracle : ReadOracle) (tr : List RegName)
    (h : readAll oracle = (none, tr)) :
    ∃ k, 1 ≤ k ∧ k ≤ 5 ∧ tr = REG_ORDER.take k := by
  unfold readAll at h
  repeat' split at h
  · injection h with h1 h2; exact ⟨1, le_refl 1, by decide, h2.symm⟩
  · injection h with h1 h2; exact ⟨2, by decide, by decide, h2.symm⟩
  · injection h with h1 h2; exact ⟨3, by decide, by decide, h2.symm⟩
  · injection h with h1 h2; exact ⟨4, by decide, by decide, h2.symm⟩
  · injection h with h1 h2; exact ⟨5, by decide, by decide, h2.symm⟩
  · injection h with h1 h2; exact Option.noConfusion h1

/-- Counterexample to C7 as stated: on a poll tick for the connected arm
`conS` with every register read succeeding, the tick issues five
`sync_read` requests (app.py lines 98-102), not exactly one batched read
covering the five register kinds. -/
theorem C7_counterexample :
    conS.connected = true ∧ conS.bus.isSome = true
    ∧ (readAll allGoodOracle).1.isSome = true
    ∧ (readArmTick allGoodOracle 0 conS).2.length = 5
    ∧ ¬((readArmTick allGoodOracle 0 conS).2.length = 1) := by
  refine ⟨rfl, rfl, rfl, rfl, ?_⟩
  exact fun h => absurd h (by decide)

/-- C7 amended: on every poll tick for a connected arm the poller issues
five batched reads, one `sync_read` per register kind in the fixed order
voltage, temperature, load, current, position, each covering all six
motors; if all five succeed the new snapshot is published, and a failure
at any point aborts the tick — the requests issued are a non-empty prefix
of the five and no partial snapshot is delivered (`data` is unchanged). -/
theorem C7_five_batched_reads :
    (∀ (oracle : ReadOracle) (t : Rat) (a : ArmState) (r : Readings) (tr : List RegName),
        a.connected = true → a.bus.isSome = true → readAll oracle = (some r, tr) →
        tr = REG_ORDER ∧ REG_ORDER.length = 5
        ∧ (readArmTick oracle t a).1.data = some (mkData r t)
        ∧ (readArmTick oracle t a).1.connected = true)
    ∧ (∀ (oracle : ReadOracle) (t : Rat) (a : ArmState) (tr : List RegName),
        a.connected = true → a.bus.isSome = true → readAll oracle = (none, tr) →
        (readArmTick oracle t a).1.data = a.data
        ∧ (readArmTick oracle t a).1.connected = false
        ∧ ∃ k, 1 ≤ k ∧ k ≤ 5 ∧ tr = REG_ORDER.take k) := by
  constructor
  · intro oracle t a r tr hc hb h0
    have hg : (a.connected && a.bus.isSome) = true := by rw [hc, hb]; rfl
    refine ⟨readAll_some_reqs oracle r tr h0, rfl, ?_, ?_⟩
    · simp [readArmTick, hg, h0]
    · simp [readArmTick, hg, h0, hc, hb]
  · intro oracle t a tr hc hb h0
    have hg : (a.connected && a.bus.isSome) = true := by rw [hc, hb]; rfl
    refine ⟨?_, ?_, readAll_none_reqs oracle tr h0⟩
    · simp [readArmTick, hg, h0]
    · simp [readArmTick, hg, h0]

theorem C7_witness :
    ((readArmTick allGoodOracle 0 conS).1.data = some (mkData rGood 0))
    ∧ (readArmTick failOracle 0 conS).1.connected = false :=
  ⟨(C7_five_batched_reads.1 allGoodOracle 0 conS rGood REG_ORDER rfl rfl rfl).2.2.1,
   (C7_five_batched_reads.2 failOracle 0 conS [RegName.voltage] rfl rfl rfl).2.1⟩

/-- The raw voltages [72, 74, 70, 75, 73, 71] of the spec's example, in
`MOTOR_NAMES` order. -/
def v5 : MotorName → Int
  | MotorName.shoulder_pan => 72
  | MotorName.shoulder_lift => 74
  | MotorName.elbow_flex => 70
  | MotorName.wrist_flex => 75
  | MotorName.wrist_roll => 73
  | MotorName.gripper => 71

/-- Readings whose reported voltages are [72, 74, 70, 75, 73, 71]. -/
def r5 : Readings :=
  { voltage := v5, temp := fun _ => 30, load := fun _ => 0
  , current := fun _ => 0, position := fun _ => 0 }

/-- Counterexample to C5 as stated: for raw reported voltages
[72, 74, 70, 75, 73, 71] the published snapshot's `min_voltage` is 7, not
70 — app.py line 107 stores `voltage[name] / 10` under Python true
division, i.e. volts, not integer tenths of a volt; moreover the motor
that reports raw voltage 72 has 72/10 = 7.2 stored, not the integer 72. -/
theorem C5_counterexample :
    (mkData r5 0).min_voltage = 7
    ∧ ¬((mkData r5 0).min_voltage = 70)
    ∧ ((mkData r5 0).motors MotorName.shoulder_pan).voltage = 72 / 10
    ∧ ¬(((mkData r5 0).motors MotorName.shoulder_pan).voltage = 72) := by
  have hmin : (mkData r5 0).min_voltage = 7 := by
    show pyMin (MOTOR_NAMES.map fun n => (mkMotorData r5 n).voltage) = 7
    norm_num [MOTOR_NAMES, mkMotorData, r5, v5, pyMin, List.foldl, min_def]
  have hsp : ((mkData r5 0).motors MotorName.shoulder_pan).voltage = 72 / 10 := by
    show ((v5 MotorName.shoulder_pan : Int) : Rat) / 10 = 72 / 10
    norm_num [v5]
  refine ⟨hmin, ?_, hsp, ?_⟩
  · rw [hmin]; norm_num
  · rw [hsp]; norm_num

/-- C5 amended: each motor's stored voltage is the raw reported register
value divided by 10 (volts, as an exact rational), and `min_voltage` is in
that same unit: for raw reported voltages [72, 74, 70, 75, 73, 71] the
snapshot's `min_voltage` equals 70/10 = 7. -/
theorem C5_voltage_unit :
    (∀ (r : Readings) (t : Rat) (n : MotorName),
        ((mkData r t).motors n).voltage = (r.voltage n : Rat) / 10)
    ∧ (mkData r5 0).min_voltage = 70 / 10 := by
  constructor
  · intro r t n; rfl
  · show pyMin (MOTOR_NAMES.map fun n => (mkMotorData r5 n).voltage) = 70 / 10
    norm_num [MOTOR_NAMES, mkMotorData, r5, v5, pyMin, List.foldl, min_def]

/-- The whole `robot_state` dict (app.py lines 40-43). -/
structure SysState where
  leader : ArmState
  follower : ArmState

/-- Initial `robot_state`: both arms unconnected, no bus, empty data. -/
def initState : SysState := { leader := initArm, follower := initArm }

/-- The startup configuration read from the environment (app.py lines
31-32): `LEADER_ARM_PORT` and `FOLLOWER_ARM_PORT`, either of which may be
unset. -/
structure Config where
  leaderPort : Option Unit
  followerPort : Option Unit

/-- The external outcomes of one `read_robot_data` critical section: a
read oracle per arm and the `time.time()` value of that tick. -/
structure TickOracle where
  leader : ReadOracle
  follower : ReadOracle
  time : Rat

/-- The external outcomes of one `connect_robots` call: per arm, whether
`create_bus(port).connect()` succeeds (`some handle`) or raises. -/
structure ConnOracle where
  leader : Option Unit
  follower : Option Unit

/-- `read_robot_data` (app.py lines 91-122): one poller tick over both
arms, performed inside a single `robot_lock` section. -/
def read_robot_data (o : TickOracle) (s : SysState) : SysState :=
  { leader := (readArmTick o.leader o.time s.leader).1
  , follower := (readArmTick o.follower o.time s.follower).1 }

/-- `connect_robots` (app.py lines 75-88), over both arms. -/
def connect_robots (cfg : Config) (o : ConnOracle) (s : SysState) : SysState :=
  { leader := connectArm cfg.leaderPort o.leader s.leader
  , follower := connectArm cfg.followerPort o.follower s.follower }

/-- The `/reconnect` handler (app.py lines 464-479): tear down both buses,
call `connect_robots`, and return `jsonify({"status": "ok"})` — the
returned status is the constant string, whatever happened. -/
def reconnect (cfg : Config) (o : ConnOracle) (s : SysState) : SysState × String :=
  ({ leader := connectArm cfg.leaderPort o.leader (teardownArm s.leader)
   , follower := connectArm cfg.followerPort o.follower (teardownArm s.follower) },
   "ok")

/-- One arm's entry in the `/robot_data` JSON (app.py lines 453-459). -/
structure ArmResponse where
  connected : Bool
  data : Option ArmData

/-- The `/robot_data` handler's response (app.py lines 449-461), read under
`robot_lock` in one critical section. -/
def robot_data_response (s : SysState) : ArmResponse × ArmResponse :=
  ({ connected := s.leader.connected, data := s.leader.data },
   { connected := s.follower.connected, data := s.follower.data })

/-- Both ports configured. -/
def cfgBoth : Config := { leaderPort := some (), followerPort := some () }

/-- Every `bus.connect()` raises. -/
def connFail : ConnOracle := { leader := none, follower := none }

/-- Every `bus.connect()` succeeds. -/
def connGood : ConnOracle := { leader := some (), follower := some () }

/-- Counterexample to C8 as stated: with both ports configured, a
`POST /reconnect` during which every `bus.connect()` raises returns exactly
the same status object as one during which every connect succeeds — the
handler always returns `{"status": "ok"}` (app.py line 479) — even though
the two runs end in different states (leader `connected` false vs true).
The returned status therefore does not distinguish failure from success. -/
theorem C8_counterexample :
    (reconnect cfgBoth connFail initState).2 = (reconnect cfgBoth connGood initState).2
    ∧ (reconnect cfgBoth connFail initState).1.leader.connected = false
    ∧ (reconnect cfgBoth connGood initState).1.leader.connected = true :=
  ⟨rfl, rfl, rfl⟩

/-- C8 amended: `POST /reconnect` always returns the constant status
`"ok"`; a failure to re-establish a bus handle is not reported in the
returned status — it is observable only asynchronously, as
`connected = false` (and on success `connected = true`) in the state that
`GET /robot_data` serves. -/
theorem C8_reconnect_status_always_ok (cfg : Config) (o : ConnOracle) (s : SysState) :
    (reconnect cfg o s).2 = "ok"
    ∧ (cfg.leaderPort.isSome = true → o.leader = none →
        (reconnect cfg o s).1.leader.connected = false)
    ∧ (cfg.leaderPort.isSome = true → o.leader.isSome = true →
        (reconnect cfg o s).1.leader.connected = true) := by
  refine ⟨rfl, ?_, ?_⟩
  · intro hp ho
    rcases hq : cfg.leaderPort with _ | p
    · rw [hq] at hp; exact absurd hp (by decide)
    · simp [reconnect, connectArm, hq, ho]
  · intro hp ho
    rcases hq : cfg.leaderPort with _ | p
    · rw [hq] at hp; exact absurd hp (by decide)
    · rcases hb : o.leader with _ | b
      · rw [hb] at ho; exact absurd ho (by decide)
      · simp [reconnect, connectArm, hq, hb]

theorem C8_witness :
    (reconnect cfgBoth connFail initState).2 = "ok"
    ∧ (reconnect cfgBoth connFail initState).1.leader.connected = false :=
  ⟨(C8_reconnect_status_always_ok cfgBoth connFail initState).1,
   (C8_reconnect_status_always_ok cfgBoth connFail initState).2.1 rfl rfl⟩

/-- An atomic event on one arm's state. Each constructor corresponds to one
`robot_lock` critical section of the source touching that arm: a poller
tick (`read_robot_data`), a `connect_robots` attempt, or a `/reconnect`
(teardown + reconnect). The oracles carry the hardware outcomes. -/
inductive ArmEvent
  | tick (oracle : ReadOracle) (t : Rat)
  | connect (oracle : Option Unit)
  | reconn (oracle : Option Unit)

/-- The per-arm effect of one event. -/
def armStep (port : Option Unit) (e : ArmEvent) (a : ArmState) : ArmState :=
  match e with
  | ArmEvent.tick oracle t => (readArmTick oracle t a).1
  | ArmEvent.connect oracle => connectArm port oracle a
  | ArmEvent.reconn oracle => reconnectArm port oracle a

/-- Run a sequence of events over one arm. -/
def armRun (port : Option Unit) : List ArmEvent → ArmState → ArmState
  | [], a => a
  | e :: es, a => armRun port es (armStep port e a)

/-- The snapshots published by one event on one arm: a tick whose guard
holds and whose five reads all succeed publishes exactly the snapshot of
that single read (`mkData r t`); every other event publishes nothing. -/
def armPub1 (e : ArmEvent) (a : ArmState) : List ArmData :=
  match e with
  | ArmEvent.tick oracle t =>
    if a.connected && a.bus.isSome then
      match (readAll oracle).1 with
      | some r => [mkData r t]
      | none => []
    else []
  | _ => []

/-- All snapshots published along a run, in order. -/
def armPubs (port : Option Unit) : List ArmEvent → ArmState → List ArmData
  | [], _ => []
  | e :: es, a => armPub1 e a ++ armPubs port es (armStep port e a)

theorem armStep_data (port : Option Unit) (e : ArmEvent) (a : ArmState) :
    (armStep port e a).data = a.data
    ∨ ∃ d ∈ armPub1 e a, (armStep port e a).data = some d := by
  cases e with
  | tick oracle t =>
    by_cases hg : (a.connected && a.bus.isSome) = true
    · rcases hr : readAll oracle with ⟨res, reqs⟩
      cases res with
      | none => left; simp [armStep, readArmTick, hg, hr]
      | some r =>
        right
        refine ⟨mkData r t, ?_, ?_⟩
        · simp [armPub1, hg, hr]
        · simp [armStep, readArmTick, hg, hr]
    · left; simp [armStep, readArmTick, hg]
  | connect oracle =>
    left
    cases port <;> cases oracle <;> simp [armStep, connectArm]
  | reconn oracle =>
    left
    have h1 : (teardownArm a).data = a.data := by
      unfold teardownArm; split <;> rfl
    cases port <;> cases oracle <;>
      simp [armStep, reconnectArm, connectArm, h1]

theorem armRun_data (port : Option Unit) :
    ∀ (es : List ArmEvent) (a : ArmState),
      (armRun port es a).data = a.data
      ∨ ∃ d ∈ armPubs port es a, (armRun port es a).data = some d := by
  intro es
  induction es with
  | nil => intro a; exact Or.inl rfl
  | cons e es ih =>
    intro a
    have hrun : armRun port (e :: es) a = armRun port es (armStep port e a) := rfl
    have hpub : armPubs port (e :: es) a
        = armPub1 e a ++ armPubs port es (armStep port e a) := rfl
    rcases ih (armStep port e a) with h | ⟨d, hd, h⟩
    · rcases armStep_data port e a with h2 | ⟨d, hd, h2⟩
      · left; rw [hrun, h, h2]
      · right
        refine ⟨d, ?_, ?_⟩
        · rw [hpub]; exact List.mem_append.mpr (Or.inl hd)
        · rw [hrun, h, h2]
    · right
      refine ⟨d, ?_, ?_⟩
      · rw [hpub]; exact List.mem_append.mpr (Or.inr hd)
      · rw [hrun, h]

/-- A system-level atomic event: one `robot_lock` critical section. -/
inductive Event
  | tick (o : TickOracle)
  | connect (o : ConnOracle)
  | reconn (o : ConnOracle)

/-- The leader arm's view of a system event. -/
def projLeader : Event → ArmEvent
  | Event.tick o => ArmEvent.tick o.leader o.time
  | Event.connect o => ArmEvent.connect o.leader
  | Event.reconn o => ArmEvent.reconn o.leader

/-- The follower arm's view of a system event. -/
def projFollower : Event → ArmEvent
  | Event.tick o => ArmEvent.tick o.follower o.time
  | Event.connect o => ArmEvent.connect o.follower
  | Event.reconn o => ArmEvent.reconn o.follower

/-- One system step: the corresponding whole-source operation. -/
def step (cfg : Config) (e : Event) (s : SysState) : SysState :=
  match e with
  | Event.tick o => read_robot_data o s
  | Event.connect o => connect_robots cfg o s
  | Event.reconn o => (reconnect cfg o s).1

/-- Run a sequence of system events. -/
def run (cfg : Config) : List Event → SysState → SysState
  | [], s => s
  | e :: es, s => run cfg es (step cfg e s)

theorem step_leader (cfg : Config) (e : Event) (s : SysState) :
    (step cfg e s).leader = armStep cfg.leaderPort (projLeader e) s.leader := by
  cases e <;> rfl

theorem step_follower (cfg : Config) (e : Event) (s : SysState) :
    (step cfg e s).follower = armStep cfg.followerPort (projFollower e) s.follower := by
  cases e <;> rfl

theorem run_leader (cfg : Config) :
    ∀ (es : List Event) (s : SysState),
      (run cfg es s).leader = armRun cfg.leaderPort (es.map projLeader) s.leader := by
  intro es
  induction es with
  | nil => intro s; rfl
  | cons e es ih =>
    intro s
    show (run cfg es (step cfg e s)).leader
        = armRun cfg.leaderPort (es.map projLeader) (armStep cfg.leaderPort (projLeader e) s.leader)
    rw [ih (step cfg e s), step_leader]

theorem run_follower (cfg : Config) :
    ∀ (es : List Event) (s : SysState),
      (run cfg es s).follower = armRun cfg.followerPort (es.map projFollower) s.follower := by
  intro es
  induction es with
  | nil => intro s; rfl
  | cons e es ih =>
    intro s
    show (run cfg es (step cfg e s)).follower
        = armRun cfg.followerPort (es.map projFollower) (armStep cfg.followerPort (projFollower e) s.follower)
    rw [ih (step cfg e s), step_follower]

/-- The leader snapshots published along a system run from startup. -/
def pubsLeader (cfg : Config) (es : List Event) : List ArmData :=
  armPubs cfg.leaderPort (es.map projLeader) initArm

/-- The follower snapshots published along a system run from startup. -/
def pubsFollower (cfg : Config) (es : List Event) : List ArmData :=
  armPubs cfg.followerPort (es.map projFollower) initArm

/-- C3: because every write of `robot_state[arm]["data"]` (app.py line 114)
replaces the dict wholesale inside the `robot_lock` section and the
`/robot_data` handler reads under the same lock, a response served at any
point of any interleaving of poller ticks, connects and reconnects carries,
per arm, either the initial empty data or exactly one published snapshot —
`mkData r t` of a single tick's readings — never a mix of fields written
by two different publish events. -/
theorem C3_response_single_publish_event (cfg : Config) (es : List Event) :
    ((robot_data_response (run cfg es initState)).1.data = none
      ∨ ∃ d ∈ pubsLeader cfg es,
          (robot_data_response (run cfg es initState)).1.data = some d)
    ∧ ((robot_data_response (run cfg es initState)).2.data = none
      ∨ ∃ d ∈ pubsFollower cfg es,
          (robot_data_response (run cfg es initState)).2.data = some d) := by
  constructor
  · show (run cfg es initState).leader.data = none
      ∨ ∃ d ∈ pubsLeader cfg es, (run cfg es initState).leader.data = some d
    rw [run_leader]
    exact armRun_data cfg.leaderPort (es.map projLeader) initState.leader
  · show (run cfg es initState).follower.data = none
      ∨ ∃ d ∈ pubsFollower cfg es, (run cfg es initState).follower.data = some d
    rw [run_follower]
    exact armRun_data cfg.followerPort (es.map projFollower) initState.follower

/-- The per-arm invariant of C10: `connected` implies an installed bus. -/
def armInv (a : ArmState) : Bool := !a.connected || a.bus.isSome

/-- C10's invariant over the whole `robot_state`. -/
def sysInv (s : SysState) : Bool := armInv s.leader && armInv s.follower

theorem armStep_inv (port : Option Unit) (e : ArmEvent) (a : ArmState)
    (h : armInv a = true) : armInv (armStep port e a) = true := by
  cases e with
  | tick oracle t =>
    by_cases hg : (a.connected && a.bus.isSome) = true
    · have hg2 := hg
      simp only [Bool.and_eq_true] at hg2
      have hb := hg2.2
      rcases hr : readAll oracle with ⟨res, reqs⟩
      cases res with
      | none => simp [armStep, readArmTick, hg, hr, armInv]
      | some r => simp [armStep, readArmTick, hg, hr, armInv, hg2.1, hb]
    · simpa [armStep, readArmTick, hg] using h
  | connect oracle =>
    cases port with
    | none => simpa [armStep, connectArm] using h
    | some p => cases oracle <;> simp [armStep, connectArm, armInv]
  | reconn oracle =>
    have h1 : armInv (teardownArm a) = true := by
      unfold teardownArm
      split
      · rfl
      · exact h
    cases port with
    | none => simpa [armStep, reconnectArm, connectArm] using h1
    | some p => cases oracle <;> simp [armStep, reconnectArm, connectArm, armInv]

theorem step_inv (cfg : Config) (e : Event) (s : SysState)
    (h : sysInv s = true) : sysInv (step cfg e s) = true := by
  have h2 := h
  simp only [sysInv, Bool.and_eq_true] at h2
  have hl := h2.1
  have hf := h2.2
  have l2 := armStep_inv cfg.leaderPort (projLeader e) s.leader hl
  have f2 := armStep_inv cfg.followerPort (projFollower e) s.follower hf
  unfold sysInv
  rw [step_leader, step_follower, l2, f2]
  rfl

theorem run_inv (cfg : Config) :
    ∀ (es : List Event) (s : SysState),
      sysInv s = true → sysInv (run cfg es s) = true := by
  intro es
  induction es with
  | nil => intro s h; exact h
  | cons e es ih =>
    intro s h
    exact ih (step cfg e s) (step_inv cfg e s h)

/-- C10: from startup, after any sequence of operations (initial
`connect_robots`, poller ticks, `/reconnect`), each arm with
`connected = true` has a bus handle installed: `connected` is only ever
set true together with a successfully connected bus
(app.py lines 83-84), read failures only clear it, and reconnect clears
the bus and flag together before reconnecting. -/
theorem C10_connected_implies_bus (cfg : Config) (es : List Event) :
    sysInv (run cfg es initState) = true :=
  run_inv cfg es initState rfl

/-- A hardware I/O operation on one of the handles. -/
inductive HwOp
  | busRead (reg : RegName)
  | camRead
deriving DecidableEq

/-- The `GET /` dashboard handler (app.py lines 436-438) renders the
static template string; the hardware operations it performs: none. -/
def index_ops : List HwOp := []

/-- The `GET /robot_data` handler (app.py lines 449-461): returns the
stored snapshots under `robot_lock`, performing no hardware operation. -/
def robot_data_handler (s : SysState) : (ArmResponse × ArmResponse) × List HwOp :=
  (robot_data_response s, [])

/-- One iteration of `generate_frames` (app.py lines 402-426), the body of
the `/video_feed` response stream: with no camera it sleeps and yields
nothing; with a camera it calls `camera.async_read(timeout_ms=200)` —
direct I/O on the Camera Handle — yielding an encoded frame on success and
nothing on an exception. The frame payload is opaque here. -/
def generate_frames_step (cam : Option Unit) (frameRead : Option Nat) :
    Option Nat × List HwOp :=
  match cam with
  | none => (none, [])
  | some _ =>
    match frameRead with
    | none => (none, [HwOp.camRead])
    | some f => (some f, [HwOp.camRead])

/-- Counterexample to C6 as stated: the `/video_feed` handler does perform
I/O on the Camera Handle. Each iteration of its stream generator with a
camera present issues a `camera.async_read` call (app.py line 413); there
is no separate frame publisher and no published frame buffer it could read
instead. The dashboard and telemetry handlers, by contrast, perform no
hardware operation. -/
theorem C6_counterexample :
    (generate_frames_step (some ()) (some 0)).2 = [HwOp.camRead]
    ∧ ¬((generate_frames_step (some ()) (some 0)).2 = []) := by
  refine ⟨rfl, ?_⟩
  intro h
  exact absurd h (by decide)

/-- C6 amended: the dashboard handler and the telemetry handler perform no
I/O on any handle — they only read the published state — but the video
stream handler reads the Camera Handle directly: every iteration of its
generator with a camera installed performs exactly one `async_read` on it
(and with no camera installed it performs none). -/
theorem C6_handler_hardware_access :
    (∀ s : SysState, (robot_data_handler s).2 = [])
    ∧ index_ops = []
    ∧ (∀ f : Option Nat, (generate_frames_step none f).2 = [])
    ∧ (∀ (c : Unit) (f : Option Nat),
        (generate_frames_step (some c) f).2 = [HwOp.camRead]) := by
  refine ⟨fun s => rfl, rfl, fun f => rfl, fun c f => ?_⟩
  cases f <;> rfl

/-- `find_available_port` (app.py lines 482-491): probe ports sequentially
from `start_port`, `max_attempts` of them; return the first whose bind
succeeds (`free port = true`); with none free the loop falls through to
`raise RuntimeError`, modelled as `none`. -/
def find_available_port (free : Nat → Bool) : Nat → Nat → Option Nat
  | _, 0 => none
  | port, Nat.succ n =>
    if free port then some port else find_available_port free (port + 1) n

theorem fap_some (free : Nat → Bool) :
    ∀ (n start p : Nat), find_available_port free start n = some p →
      free p = true ∧ start ≤ p ∧ p < start + n
      ∧ ∀ q, start ≤ q → q < p → free q = false := by
  intro n
  induction n with
  | zero =>
    intro start p h
    exact absurd h (by simp [find_available_port])
  | succ n ih =>
    intro start p h
    simp only [find_available_port] at h
    by_cases hf : free start = true
    · rw [if_pos hf] at h
      injection h with h1
      subst h1
      refine ⟨hf, le_refl _, by omega, ?_⟩
      intro q hq1 hq2
      exact absurd hq2 (by omega)
    · rw [if_neg hf] at h
      obtain ⟨h1, h2, h3, h4⟩ := ih (start + 1) p h
      refine ⟨h1, by omega, by omega, ?_⟩
      intro q hq1 hq2
      rcases Nat.eq_or_lt_of_le hq1 with he | hl
      · have hfs : free start = false := by
          cases hc : free start with
          | true => exact absurd hc hf
          | false => rfl
        exact he ▸ hfs
      · exact h4 q (by omega) hq2

theorem fap_none_sound (free : Nat → Bool) :
    ∀ (n start : Nat), find_available_port free start n = none →
      ∀ q, start ≤ q → q < start + n → free q = false := by
  intro n
  induction n with
  | zero =>
    intro start h q hq1 hq2
    exact absurd hq2 (by omega)
  | succ n ih =>
    intro start h q hq1 hq2
    simp only [find_available_port] at h
    by_cases hf : free start = true
    · rw [if_pos hf] at h
      exact Option.noConfusion h
    · rw [if_neg hf] at h
      have hfs : free start = false := by
        cases hc : free start with
        | true => exact absurd hc hf
        | false => rfl
      rcases Nat.eq_or_lt_of_le hq1 with he | hl
      · exact he ▸ hfs
      · exact ih (start + 1) h q (by omega) (by omega)

theorem fap_none_complete (free : Nat → Bool) :
    ∀ (n start : Nat), (∀ q, start ≤ q → q < start + n → free q = false) →
      find_available_port free start n = none := by
  intro n
  induction n with
  | zero => intro start _; rfl
  | succ n ih =>
    intro start h
    have hfs : free start = false := h start (le_refl _) (by omega)
    simp only [find_available_port, hfs]
    exact ih (start + 1) (fun q hq1 hq2 => h q (by omega) (by omega))

/-- Free-port predicate with ports 5001 through 5003 occupied and
everything above free. -/
def free3 : Nat → Bool := fun p => decide (5003 < p)

/-- C9: the server's port probe over the default range (base 5001, 100
attempts, app.py lines 482-491, called as `find_available_port(5001)`)
returns the first free port: any returned port is free, lies in
[5001, 5101), and every port before it was occupied; it returns `none`
(the `raise RuntimeError`) exactly when no port in the range is free; and
with ports 5001-5003 occupied it returns 5004. -/
theorem C9_port_probe (free : Nat → Bool) :
    (∀ p : Nat,
        find_available_port free 5001 100 = some p →
        free p = true ∧ 5001 ≤ p ∧ p < 5101
        ∧ ∀ q, 5001 ≤ q → q < p → free q = false)
    ∧ (find_available_port free 5001 100 = none →
        ∀ q, 5001 ≤ q → q < 5101 → free q = false)
    ∧ ((∀ q, 5001 ≤ q → q < 5101 → free q = false) →
        find_available_port free 5001 100 = none)
    ∧ find_available_port free3 5001 100 = some 5004 := by
  refine ⟨?_, ?_, ?_, by decide⟩
  · intro p h
    obtain ⟨h1, h2, h3, h4⟩ := fap_some free 100 5001 p h
    exact ⟨h1, h2, by omega, h4⟩
  · intro h q hq1 hq2
    exact fap_none_sound free 100 5001 h q hq1 (by omega)
  · intro h
    exact fap_none_complete free 100 5001 (fun q hq1 hq2 => h q hq1 (by omega))

theorem C9_witness :
    free3 5004 = true ∧ find_available_port (fun _ => false) 5001 100 = none :=
  ⟨((C9_port_probe free3).1 5004 (by decide)).1,
   (C9_port_probe (fun _ => false)).2.2.1 (fun q hq1 hq2 => rfl)⟩

end CameraWeb
